import Mathlib

/-!
Verification of the AWS financial-agent integration layer.

Shallow embedding of the repository's Python sources:
  * `src/agent/auth.py`    — `OAuth2TokenProvider` (token cache and exchange)
  * `src/agent/config.py`  — `load_config`
  * `src/agent/mcp_client.py` — `create_finance_client`
  * `src/my_agent.py`      — `invoke` (attempt / fallback control flow)

Network, clock and environment effects are passed explicitly: a call that
in Python performs an HTTP request takes the response as an oracle
argument, and the embedding counts the requests it performs.  Python
exceptions become `Except String`; Python truthiness of an optional
string (`None` and `""` are both falsy) is modelled explicitly.
-/

namespace BedrockAgent

/-! ## src/agent/auth.py -/

/-- The `OAuth2TokenProvider` object: constructor arguments plus the two
mutable cache fields `_token` and `_expires_at` (times are modelled as
integer seconds on an absolute clock). -/
structure OAuth2TokenProvider where
  token_url : String
  client_id : String
  client_secret : String
  _token : Option String
  _expires_at : Option Int
  deriving Repr, DecidableEq

/-- `OAuth2TokenProvider.__init__`: both cache fields start at `None`. -/
def OAuth2TokenProvider.init (token_url client_id client_secret : String) :
    OAuth2TokenProvider :=
  ⟨token_url, client_id, client_secret, none, none⟩

/-- JSON body of a token-endpoint response: `access_token` and
`expires_in` keys, each possibly missing. -/
structure TokenBody where
  access_token : Option String
  expires_in : Option Int
  deriving Repr, DecidableEq

/-- An HTTP response from the token endpoint; `body = none` models a body
that is not valid JSON (so `response.json()` raises). -/
structure HttpResponse where
  status_code : Nat
  body : Option TokenBody
  deriving Repr, DecidableEq

instance {ε α : Type} [DecidableEq ε] [DecidableEq α] :
    DecidableEq (Except ε α) := fun x y =>
  match x, y with
  | .error a, .error b =>
    if h : a = b then .isTrue (by rw [h])
    else .isFalse (fun hc => h (Except.error.inj hc))
  | .ok a, .ok b =>
    if h : a = b then .isTrue (by rw [h])
    else .isFalse (fun hc => h (Except.ok.inj hc))
  | .error _, .ok _ => .isFalse (fun hc => Except.noConfusion hc)
  | .ok _, .error _ => .isFalse (fun hc => Except.noConfusion hc)

/-- Outcome of the `requests.post` call: either a transport-level
exception or an HTTP response. -/
def NetResponse : Type := Except String HttpResponse

instance : DecidableEq NetResponse :=
  inferInstanceAs (DecidableEq (Except String HttpResponse))

/-- `requests.Response.raise_for_status` raises `HTTPError` exactly for
status codes in [400, 600). -/
def raise_for_status_raises (status_code : Nat) : Bool :=
  decide (400 ≤ status_code ∧ status_code < 600)

/-- Result of a `get_token` call: the returned value (or the exception),
the provider state after the call, and how many network requests the
call performed. -/
structure GetTokenResult where
  result : Except String String
  state : OAuth2TokenProvider
  requests : Nat
  deriving Repr, DecidableEq

/-- The exchange path of `get_token` (auth.py lines 46-64): one
`requests.post`, then `raise_for_status`, `response.json()`,
`token_data["access_token"]`, `token_data.get("expires_in", 3600)`, and
the cache update `_expires_at = now + (expires_in - 60)`. -/
def token_exchange (s : OAuth2TokenProvider) (now : Int) (net : NetResponse) :
    GetTokenResult :=
  match net with
  | .error e => ⟨.error e, s, 1⟩
  | .ok resp =>
    if raise_for_status_raises resp.status_code then
      ⟨.error "HTTPError", s, 1⟩
    else
      match resp.body with
      | none => ⟨.error "JSONDecodeError", s, 1⟩
      | some token_data =>
        match token_data.access_token with
        | none => ⟨.error "KeyError: access_token", s, 1⟩
        | some tok =>
          let expires_in := token_data.expires_in.getD 3600
          ⟨.ok tok,
           { s with _token := some tok,
                    _expires_at := some (now + (expires_in - 60)) },
           1⟩

/-- The cached-token guard of `get_token` (auth.py line 42):
`self._token and self._expires_at and datetime.now() < self._expires_at`.
A cached empty string is falsy in Python, so it does not count as a
valid cached token. -/
def cache_valid (s : OAuth2TokenProvider) (now : Int) : Bool :=
  match s._token, s._expires_at with
  | some t, some e => decide (t ≠ "") && decide (now < e)
  | _, _ => false

/-- `OAuth2TokenProvider.get_token`: return the cached token if the guard
holds, otherwise perform exactly one token exchange. -/
def get_token (s : OAuth2TokenProvider) (now : Int) (net : NetResponse) :
    GetTokenResult :=
  match s._token, s._expires_at with
  | some t, some e =>
    if t ≠ "" ∧ now < e then ⟨.ok t, s, 0⟩ else token_exchange s now net
  | _, _ => token_exchange s now net

/-! ## src/agent/config.py -/

/-- Python truthiness of an optional string: `None` and `""` are falsy. -/
def truthy : Option String → Bool
  | none => false
  | some s => decide (s ≠ "")

/-- A Python dict of strings, as an association list; `d.get(k)`. -/
def dictGet (d : List (String × String)) (k : String) : Option String :=
  (d.find? (fun p => p.1 = k)).map (fun p => p.2)

/-- The `AgentConfig` NamedTuple.  In Python the credential fields are
filled with `os.getenv` / `dict.get` results and may be `None` before
validation, hence `Option String`. -/
structure AgentConfig where
  model_id : String
  finance_mcp_url : String
  auth_server_token_url : Option String
  mcp_client_id : Option String
  mcp_client_secret : Option String
  deriving Repr, DecidableEq

/-- The process environment and the Secrets Manager oracle:
`getenv name` is `os.getenv(name)`, and `get_secret name region` is the
result of `_get_secret_from_aws` (`none` when boto3 is unavailable, the
secret is missing, or IAM denies access; a dict otherwise). -/
structure ConfigEnv where
  getenv : String → Option String
  get_secret : String → String → Option (List (String × String))

/-- Credential resolution in `load_config` (config.py lines 65-81): if
`SECRET_NAME` is truthy, try Secrets Manager; a truthy (non-`None`,
non-empty) secret dict wins, otherwise fall back to environment
variables. -/
def resolve_credentials (env : ConfigEnv) : Option String × Option String :=
  let secret_name := env.getenv "SECRET_NAME"
  let secret_data : Option (List (String × String)) :=
    if truthy secret_name then
      env.get_secret (secret_name.getD "")
        ((env.getenv "AWS_DEFAULT_REGION").getD "us-east-1")
    else none
  match secret_data with
  | some d =>
    if d ≠ [] then (dictGet d "MCP_CLIENT_ID", dictGet d "MCP_CLIENT_SECRET")
    else (env.getenv "MCP_CLIENT_ID", env.getenv "MCP_CLIENT_SECRET")
  | none => (env.getenv "MCP_CLIENT_ID", env.getenv "MCP_CLIENT_SECRET")

/-- `load_config` (config.py lines 42-97): build the config record, then
validate the three required values, raising `ValueError` on the first
falsy one. -/
def load_config (env : ConfigEnv) : Except String AgentConfig :=
  let creds := resolve_credentials env
  let config : AgentConfig :=
    { model_id := "us.anthropic.claude-sonnet-4-5-20250929-v1:0"
      finance_mcp_url :=
        (env.getenv "FINANCE_MCP_URL").getD "https://finance.macrospire.com/mcp"
      auth_server_token_url := env.getenv "AUTH_SERVER_TOKEN_URL"
      mcp_client_id := creds.1
      mcp_client_secret := creds.2 }
  if ¬ truthy config.auth_server_token_url then
    .error "AUTH_SERVER_TOKEN_URL environment variable is required"
  else if ¬ truthy config.mcp_client_id then
    .error "MCP_CLIENT_ID is required (from SECRET_NAME or environment)"
  else if ¬ truthy config.mcp_client_secret then
    .error "MCP_CLIENT_SECRET is required (from SECRET_NAME or environment)"
  else
    .ok config

/-! ## src/agent/mcp_client.py -/

/-- The configured MCP client: the transport factory closes over the
server URL and the Authorization header built from the token. -/
structure MCPClient where
  url : String
  headers : List (String × String)
  deriving Repr, DecidableEq

/-- `create_finance_client` (mcp_client.py lines 12-37): construct a
brand-new `OAuth2TokenProvider`, call `get_token()` once, and build the
client with a `Bearer` header.  Besides the client (or the propagated
exception) the embedding returns the provider's final state and the
number of network requests performed. -/
def create_finance_client (config : AgentConfig) (now : Int)
    (net : NetResponse) :
    Except String MCPClient × OAuth2TokenProvider × Nat :=
  let token_provider := OAuth2TokenProvider.init
    (config.auth_server_token_url.getD "")
    (config.mcp_client_id.getD "")
    (config.mcp_client_secret.getD "")
  let r := get_token token_provider now net
  match r.result with
  | .error e => (.error e, r.state, r.requests)
  | .ok token =>
    (.ok ⟨config.finance_mcp_url,
          [("Authorization", "Bearer " ++ token)]⟩,
     r.state, r.requests)

/-! ## src/my_agent.py -/

/-- The three locally declared file tools combined with the MCP tools
(my_agent.py line 49). -/
def localTools : List String := ["file_read", "file_write", "editor"]

/-- The canned greeting used when the payload has no `prompt` key
(my_agent.py line 38). -/
def defaultGreeting : String := "Hello! How can I help you today?"

/-- Observable events of one `invoke` run: opening and closing the MCP
connection (`with finance_client`), the warning print in the `except`
branch, and each agent execution with the tool list it was bound to. -/
inductive Event where
  | openConn : Event
  | closeConn : Event
  | logWarning : Event
  | agentRun : List String → String → Event
  deriving Repr, DecidableEq, BEq

/-- Oracle for the effectful steps of `invoke`: the outcome of
`create_finance_client(config)` (which performs the token exchange), of
entering the `with` block (establishing the MCP connection), of
`list_tools_sync()` (tool discovery), and of executing an agent bound to
a given tool list on a given message. -/
structure InvokeEnv where
  create_finance_client : Except String Unit
  enterConnection : Except String Unit
  list_tools_sync : Except String (List String)
  agentRun : List String → String → Except String String

/-- Result of `invoke`: the returned dict (or the propagated exception)
and the trace of observable events. -/
def InvokeResult : Type :=
  Except String (List (String × String)) × List Event

instance : DecidableEq InvokeResult :=
  inferInstanceAs (DecidableEq (Except String (List (String × String)) × List Event))

/-- The `except Exception` branch (my_agent.py lines 76-92): print a
warning, build an agent with only the file tools, run it; an exception
here propagates. -/
def fallbackPath (env : InvokeEnv) (user_message : String)
    (evs : List Event) : InvokeResult :=
  let evs := evs ++ [Event.logWarning, Event.agentRun localTools user_message]
  match env.agentRun localTools user_message with
  | .error e => (.error e, evs)
  | .ok m => (.ok [("result", m)], evs)

/-- `invoke` (my_agent.py lines 28-92).  The `try` block creates the
client, enters `with finance_client`, discovers tools, and runs an agent
bound to `mcp_tools + [file_read, file_write, editor]`; the `with`
closes the connection on both normal return and exception; any exception
raised inside the `try` block lands in the fallback branch. -/
def invoke (env : InvokeEnv) (payload : List (String × String)) :
    InvokeResult :=
  let user_message := (dictGet payload "prompt").getD defaultGreeting
  match env.create_finance_client with
  | .error _ => fallbackPath env user_message []
  | .ok _ =>
    match env.enterConnection with
    | .error _ => fallbackPath env user_message []
    | .ok _ =>
      let bodyOut : Except String (List (String × String)) × List Event :=
        match env.list_tools_sync with
        | .error e => (.error e, [])
        | .ok mcp_tools =>
          let all_tools := mcp_tools ++ localTools
          match env.agentRun all_tools user_message with
          | .error e => (.error e, [Event.agentRun all_tools user_message])
          | .ok m =>
            (.ok [("result", m)], [Event.agentRun all_tools user_message])
      let evs := Event.openConn :: bodyOut.2 ++ [Event.closeConn]
      match bodyOut.1 with
      | .ok r => (.ok r, evs)
      | .error _ => fallbackPath env user_message evs

/-- A run in which the tool server is reachable and tool discovery
succeeds, but agent execution with the combined tool set raises, while
the file-tools-only fallback agent answers. -/
def execErrorEnv : InvokeEnv :=
  { create_finance_client := .ok ()
    enterConnection := .ok ()
    list_tools_sync := .ok ["get_stock_price"]
    agentRun := fun tools _ =>
      if tools = "get_stock_price" :: localTools then
        .error "ThrottlingException"
      else .ok "fallback answer" }

/-! ## Helper lemmas -/

theorem get_token_eq_of_not_cached (s : OAuth2TokenProvider) (now : Int)
    (net : NetResponse) (h : cache_valid s now = false) :
    get_token s now net = token_exchange s now net := by
  obtain ⟨url, cid, cs, tok, exp⟩ := s
  cases tok with
  | none => cases exp <;> rfl
  | some t =>
    cases exp with
    | none => rfl
    | some e =>
      simp only [cache_valid, Bool.and_eq_false_iff, decide_eq_false_iff_not,
        not_not] at h
      simp only [get_token]
      rw [if_neg]
      rintro ⟨h1, h2⟩
      rcases h with h | h
      · exact h1 h
      · exact absurd h2 h

theorem get_token_eq_of_cached (s : OAuth2TokenProvider) (now : Int)
    (net : NetResponse) (t : String) (e : Int)
    (ht : s._token = some t) (hne : t ≠ "")
    (he : s._expires_at = some e) (hlt : now < e) :
    get_token s now net = ⟨.ok t, s, 0⟩ := by
  obtain ⟨url, cid, cs, tok, exp⟩ := s
  simp only at ht he
  subst ht; subst he
  simp only [get_token]
  rw [if_pos ⟨hne, hlt⟩]

theorem token_exchange_requests (s : OAuth2TokenProvider) (now : Int)
    (net : NetResponse) : (token_exchange s now net).requests = 1 := by
  unfold token_exchange
  repeat' split
  all_goals rfl

theorem token_exchange_state_or_ok (s : OAuth2TokenProvider) (now : Int)
    (net : NetResponse) :
    (token_exchange s now net).state = s ∨
    ∃ tok, (token_exchange s now net).result = Except.ok tok := by
  unfold token_exchange
  repeat' split
  all_goals first
    | exact Or.inl rfl
    | exact Or.inr ⟨_, rfl⟩

theorem token_exchange_success (s : OAuth2TokenProvider) (now : Int)
    (resp : HttpResponse) (td : TokenBody) (tok : String)
    (hstatus : raise_for_status_raises resp.status_code = false)
    (hbody : resp.body = some td) (htok : td.access_token = some tok) :
    token_exchange s now (.ok resp) =
      ⟨.ok tok,
       { s with _token := some tok,
                _expires_at := some (now + (td.expires_in.getD 3600 - 60)) },
       1⟩ := by
  simp only [token_exchange, hstatus, Bool.false_eq_true, if_false, hbody, htok]

/-! ## Claims about the token provider (auth.py) -/

/-- C2 (counterexample): a provider state with a cached token and an
expiry strictly in the future on which `get_token` nevertheless performs
a network request — the cached token is the empty string, which is falsy
in Python, so the `self._token and ...` guard fails and the token is
re-fetched.  The claim "for every state with a cached token and
now < expiry, `get_token` returns the cached token with no network
request" is therefore false as stated. -/
theorem get_token_cached_empty_refetches :
    ((OAuth2TokenProvider.mk "u" "i" "s" (some "") (some 100))._token
        = some "" ∧ (0 : Int) < 100) ∧
    (get_token (OAuth2TokenProvider.mk "u" "i" "s" (some "") (some 100)) 0
        (Except.error "connection refused")).requests ≠ 0 ∧
    (get_token (OAuth2TokenProvider.mk "u" "i" "s" (some "") (some 100)) 0
        (Except.error "connection refused")).result ≠ Except.ok "" := by
  decide

/-- C2 (amended): for every provider state caching a *nonempty* token
string with the current time strictly before the cached expiry,
`get_token` returns the cached token, performs no network request and
leaves the state unchanged; consequently a second call within the
validity window returns the identical token string with no network
request either. -/
theorem get_token_cached_hit (s : OAuth2TokenProvider) (now now₂ : Int)
    (net net₂ : NetResponse) (t : String) (e : Int)
    (ht : s._token = some t) (hne : t ≠ "")
    (he : s._expires_at = some e) (h1 : now < e) (h2 : now₂ < e) :
    get_token s now net = ⟨.ok t, s, 0⟩ ∧
    get_token (get_token s now net).state now₂ net₂ = ⟨.ok t, s, 0⟩ := by
  have hfst := get_token_eq_of_cached s now net t e ht hne he h1
  refine ⟨hfst, ?_⟩
  rw [hfst]
  exact get_token_eq_of_cached s now₂ net₂ t e ht hne he h2

/-- C2 witness. -/
theorem get_token_cached_hit_witness :
    get_token (OAuth2TokenProvider.mk "u" "i" "s" (some "tok") (some 100)) 10
        (Except.error "down") =
      ⟨.ok "tok", OAuth2TokenProvider.mk "u" "i" "s" (some "tok") (some 100), 0⟩ ∧
    get_token (get_token (OAuth2TokenProvider.mk "u" "i" "s" (some "tok")
          (some 100)) 10 (Except.error "down")).state 20
        (Except.error "still down") =
      ⟨.ok "tok", OAuth2TokenProvider.mk "u" "i" "s" (some "tok") (some 100), 0⟩ :=
  get_token_cached_hit _ 10 20 _ _ "tok" 100 rfl (by decide) rfl
    (by decide) (by decide)

/-- C3: on a successful exchange (no valid cached token, a response that
`raise_for_status` accepts, a JSON body carrying `access_token`),
`get_token` returns the fresh token, caches it, and sets the cached
expiry to now + reported lifetime − 60 seconds; when the response omits
`expires_in` the lifetime used is 3600 seconds, so the cached expiry is
now + 3540. -/
theorem get_token_success_caches (s : OAuth2TokenProvider) (now : Int)
    (resp : HttpResponse) (td : TokenBody) (tok : String)
    (hcache : cache_valid s now = false)
    (hstatus : raise_for_status_raises resp.status_code = false)
    (hbody : resp.body = some td) (htok : td.access_token = some tok) :
    get_token s now (.ok resp) =
      ⟨.ok tok,
       { s with _token := some tok,
                _expires_at := some (now + (td.expires_in.getD 3600 - 60)) },
       1⟩ ∧
    (td.expires_in = none →
      (get_token s now (.ok resp)).state._expires_at = some (now + 3540)) := by
  have hx := token_exchange_success s now resp td tok hstatus hbody htok
  have hg : get_token s now (.ok resp) = token_exchange s now (.ok resp) :=
    get_token_eq_of_not_cached s now _ hcache
  rw [hg, hx]
  refine ⟨rfl, fun hnone => ?_⟩
  simp [hnone]

/-- C3 witness. -/
theorem get_token_success_caches_witness :
    get_token (OAuth2TokenProvider.init "u" "i" "s") 1000
        (.ok ⟨200, some ⟨some "fresh", none⟩⟩) =
      ⟨.ok "fresh",
       OAuth2TokenProvider.mk "u" "i" "s" (some "fresh") (some 4540), 1⟩ ∧
    ((none : Option Int) = none →
      (get_token (OAuth2TokenProvider.init "u" "i" "s") 1000
          (.ok ⟨200, some ⟨some "fresh", none⟩⟩)).state._expires_at
        = some (1000 + 3540)) := by
  have h := get_token_success_caches (OAuth2TokenProvider.init "u" "i" "s")
    1000 ⟨200, some ⟨some "fresh", none⟩⟩ ⟨some "fresh", none⟩ "fresh"
    (by decide) (by decide) rfl rfl
  exact ⟨by rw [h.1]; decide, h.2⟩

/-- C4 (counterexample): a non-2xx response that does *not* make
`get_token` raise.  `response.raise_for_status()` raises only for status
codes in [400, 600), so a 300 response (non-2xx) passes through and its
body is parsed: `get_token` returns the token instead of raising an
authentication error. -/
theorem get_token_non2xx_no_raise :
    (¬ (200 ≤ 300 ∧ 300 < 300)) ∧
    raise_for_status_raises 300 = false ∧
    (get_token (OAuth2TokenProvider.init "u" "i" "s") 0
        (.ok ⟨300, some ⟨some "tok300", some 7200⟩⟩)).result
      = Except.ok "tok300" := by
  decide

/-- C4 (amended): for every provider state with no valid cached token,
`get_token` performs exactly one token-exchange request, and if the
endpoint returns a 4xx or 5xx response it raises an authentication error
(`HTTPError`) without retrying the exchange within that call. -/
theorem get_token_single_exchange (s : OAuth2TokenProvider) (now : Int)
    (net : NetResponse)
    (hcache : cache_valid s now = false) :
    (get_token s now net).requests = 1 ∧
    (∀ resp : HttpResponse, net = .ok resp →
      400 ≤ resp.status_code → resp.status_code < 600 →
      (get_token s now net).result = .error "HTTPError") := by
  rw [get_token_eq_of_not_cached s now net hcache]
  refine ⟨token_exchange_requests s now net, ?_⟩
  intro resp hnet h4 h6
  subst hnet
  have hr : raise_for_status_raises resp.status_code = true := by
    simp [raise_for_status_raises, h4, h6]
  simp [token_exchange, hr]

/-- C4 witness. -/
theorem get_token_single_exchange_witness :
    (get_token (OAuth2TokenProvider.init "u" "i" "s") 0
        (.ok ⟨401, some ⟨none, none⟩⟩)).requests = 1 ∧
    (∀ resp : HttpResponse,
      (Except.ok ⟨401, some ⟨none, none⟩⟩ : NetResponse) = .ok resp →
      400 ≤ resp.status_code → resp.status_code < 600 →
      (get_token (OAuth2TokenProvider.init "u" "i" "s") 0
          (.ok ⟨401, some ⟨none, none⟩⟩)).result = .error "HTTPError") :=
  get_token_single_exchange (OAuth2TokenProvider.init "u" "i" "s") 0
    (.ok ⟨401, some ⟨none, none⟩⟩) (by decide)

/-- C10: `get_token` is atomic on failure — whenever it raises (network
error, HTTP error status, malformed body, missing `access_token`), the
provider's cached `_token` and `_expires_at` fields are exactly what
they were before the call. -/
theorem get_token_failure_preserves_state (s : OAuth2TokenProvider)
    (now : Int) (net : NetResponse) (e : String)
    (herr : (get_token s now net).result = .error e) :
    (get_token s now net).state = s := by
  by_cases hc : cache_valid s now = false
  · rw [get_token_eq_of_not_cached s now net hc] at herr ⊢
    rcases token_exchange_state_or_ok s now net with h | ⟨tok, hok⟩
    · exact h
    · rw [hok] at herr
      exact absurd herr (by simp)
  · exfalso
    rw [Bool.not_eq_false] at hc
    obtain ⟨url, cid, cs, tok, exp⟩ := s
    cases tok with
    | none => simp [cache_valid] at hc
    | some t =>
      cases exp with
      | none => simp [cache_valid] at hc
      | some ex =>
        have hcond : t ≠ "" ∧ now < ex := by
          simpa [cache_valid, Bool.and_eq_true, decide_eq_true_eq] using hc
        rw [get_token_eq_of_cached _ now net t ex rfl hcond.1 rfl
          hcond.2] at herr
        simp at herr

/-- C10 witness. -/
theorem get_token_failure_preserves_state_witness :
    (get_token (OAuth2TokenProvider.mk "u" "i" "s" (some "old") (some 5)) 99
        (Except.error "timeout")).result = .error "timeout" ∧
    (get_token (OAuth2TokenProvider.mk "u" "i" "s" (some "old") (some 5)) 99
        (Except.error "timeout")).state
      = OAuth2TokenProvider.mk "u" "i" "s" (some "old") (some 5) :=
  ⟨by decide,
   get_token_failure_preserves_state
     (OAuth2TokenProvider.mk "u" "i" "s" (some "old") (some 5)) 99
     (Except.error "timeout") "timeout" (by decide)⟩

/-! ## Claims about configuration loading (config.py) -/

/-- C5: if the environment does not provide `AUTH_SERVER_TOKEN_URL`, or
the credential resolution (Secrets Manager first, environment fallback)
yields no `MCP_CLIENT_ID` or no `MCP_CLIENT_SECRET`, `load_config`
raises a `ValueError` instead of returning a configuration. -/
theorem load_config_missing_raises (env : ConfigEnv)
    (h : env.getenv "AUTH_SERVER_TOKEN_URL" = none ∨
         (resolve_credentials env).1 = none ∨
         (resolve_credentials env).2 = none) :
    ∃ msg, load_config env = .error msg := by
  unfold load_config
  rcases h with h | h | h
  · exact ⟨"AUTH_SERVER_TOKEN_URL environment variable is required",
      by rw [if_pos (by simp [h, truthy])]⟩
  · by_cases ha : truthy (env.getenv "AUTH_SERVER_TOKEN_URL") = true
    · exact ⟨"MCP_CLIENT_ID is required (from SECRET_NAME or environment)",
        by rw [if_neg (by simp [ha]), if_pos (by simp [h, truthy])]⟩
    · exact ⟨"AUTH_SERVER_TOKEN_URL environment variable is required",
        by rw [if_pos (by simpa using ha)]⟩
  · by_cases ha : truthy (env.getenv "AUTH_SERVER_TOKEN_URL") = true
    · by_cases hi : truthy (resolve_credentials env).1 = true
      · exact
          ⟨"MCP_CLIENT_SECRET is required (from SECRET_NAME or environment)",
           by rw [if_neg (by simp [ha]), if_neg (by simp [hi]),
             if_pos (by simp [h, truthy])]⟩
      · exact ⟨"MCP_CLIENT_ID is required (from SECRET_NAME or environment)",
          by rw [if_neg (by simp [ha]), if_pos (by simpa using hi)]⟩
    · exact ⟨"AUTH_SERVER_TOKEN_URL environment variable is required",
        by rw [if_pos (by simpa using ha)]⟩

/-- C5 witness: an empty environment with no secrets store. -/
theorem load_config_missing_raises_witness :
    ∃ msg, load_config ⟨fun _ => none, fun _ _ => none⟩ = .error msg :=
  load_config_missing_raises ⟨fun _ => none, fun _ _ => none⟩ (Or.inl rfl)

/-! ## Claims about client creation (mcp_client.py) -/

/-- C9: `create_finance_client` constructs a brand-new provider whose
cache starts empty (`_token = None`, `_expires_at = None`), and every
call therefore performs exactly one fresh token exchange — a cached
token is never served across `create_finance_client` calls. -/
theorem create_finance_client_fresh_exchange (config : AgentConfig)
    (now : Int) (net : NetResponse) (u i sec : String) :
    (OAuth2TokenProvider.init u i sec)._token = none ∧
    (OAuth2TokenProvider.init u i sec)._expires_at = none ∧
    (create_finance_client config now net).2.2 = 1 := by
  refine ⟨rfl, rfl, ?_⟩
  have hcv : cache_valid (OAuth2TokenProvider.init
      (config.auth_server_token_url.getD "") (config.mcp_client_id.getD "")
      (config.mcp_client_secret.getD "")) now = false := rfl
  have hreq : (get_token (OAuth2TokenProvider.init
      (config.auth_server_token_url.getD "") (config.mcp_client_id.getD "")
      (config.mcp_client_secret.getD "")) now net).requests = 1 := by
    rw [get_token_eq_of_not_cached _ now net hcv]
    exact token_exchange_requests _ now net
  simp only [create_finance_client]
  split
  · exact hreq
  · exact hreq

/-! ## Claims about the invocation handler (my_agent.py) -/

theorem fallbackPath_ok (env : InvokeEnv) (user_message : String)
    (evs : List Event) (m : String)
    (hfb : env.agentRun localTools user_message = .ok m) :
    (fallbackPath env user_message evs).1 = .ok [("result", m)] ∧
    Event.logWarning ∈ (fallbackPath env user_message evs).2 := by
  unfold fallbackPath
  rw [hfb]
  exact ⟨rfl, by simp⟩

/-- C1: if an exception is raised while creating the MCP client,
entering the connection, or discovering tools, and the fallback agent
(file tools only) produces a message, then `invoke` does not propagate
the exception: it logs a warning and returns `{"result": m}` where `m`
is the fallback agent's message. -/
theorem invoke_setup_failure_falls_back (env : InvokeEnv)
    (payload : List (String × String)) (m : String)
    (hfail : (∃ e, env.create_finance_client = Except.error e) ∨
             (∃ e, env.enterConnection = Except.error e) ∨
             (∃ e, env.list_tools_sync = Except.error e))
    (hfb : env.agentRun localTools
        ((dictGet payload "prompt").getD defaultGreeting) = .ok m) :
    (invoke env payload).1 = .ok [("result", m)] ∧
    Event.logWarning ∈ (invoke env payload).2 := by
  unfold invoke
  rcases hcr : env.create_finance_client with e | u
  · exact fallbackPath_ok env _ [] m hfb
  · rcases hen : env.enterConnection with e | u'
    · exact fallbackPath_ok env _ [] m hfb
    · rcases hls : env.list_tools_sync with e | ts
      · exact fallbackPath_ok env _ _ m hfb
      · exfalso
        rcases hfail with ⟨e, he⟩ | ⟨e, he⟩ | ⟨e, he⟩
        · rw [hcr] at he; exact Except.noConfusion he
        · rw [hen] at he; exact Except.noConfusion he
        · rw [hls] at he; exact Except.noConfusion he

/-- C1 witness: tool discovery raises, the fallback agent answers. -/
theorem invoke_setup_failure_falls_back_witness :
    (invoke ⟨.ok (), .ok (), .error "ConnectionError",
        fun _ _ => .ok "local answer"⟩ [("prompt", "x")]).1
      = .ok [("result", "local answer")] ∧
    Event.logWarning ∈ (invoke ⟨.ok (), .ok (), .error "ConnectionError",
        fun _ _ => .ok "local answer"⟩ [("prompt", "x")]).2 :=
  invoke_setup_failure_falls_back
    ⟨.ok (), .ok (), .error "ConnectionError", fun _ _ => .ok "local answer"⟩
    [("prompt", "x")] "local answer"
    (Or.inr (Or.inr ⟨"ConnectionError", rfl⟩)) rfl

/-- C6: an empty payload behaves identically to a payload whose prompt
is the canned greeting "Hello! How can I help you today?" — same result
and same event trace, for every environment. -/
theorem invoke_empty_payload_defaults (env : InvokeEnv) :
    invoke env [] = invoke env [("prompt", defaultGreeting)] := rfl

/-- C7 (counterexample): the `try` block of `invoke` also wraps agent
execution, so an error raised during agent execution after a fully
successful session setup does *not* propagate — it is caught by the
`except Exception` branch and converted into a fallback response. -/
theorem invoke_exec_error_not_propagated :
    execErrorEnv.create_finance_client = .ok () ∧
    execErrorEnv.enterConnection = .ok () ∧
    execErrorEnv.list_tools_sync = .ok ["get_stock_price"] ∧
    execErrorEnv.agentRun ("get_stock_price" :: localTools) "x"
      = .error "ThrottlingException" ∧
    (invoke execErrorEnv [("prompt", "x")]).1
      = .ok [("result", "fallback answer")] ∧
    (invoke execErrorEnv [("prompt", "x")]).1
      ≠ .error "ThrottlingException" := by
  decide

/-- C7 (amended): an error raised during agent execution on the attempt
path is caught like a setup error and triggers the fallback; only an
error raised during the fallback agent execution propagates to the
hosting runtime. -/
theorem invoke_exec_error_caught (env : InvokeEnv)
    (payload : List (String × String)) (ts : List String) (e : String)
    (hc : env.create_finance_client = .ok ())
    (hen : env.enterConnection = .ok ())
    (hls : env.list_tools_sync = .ok ts)
    (hrun : env.agentRun (ts ++ localTools)
        ((dictGet payload "prompt").getD defaultGreeting) = .error e) :
    (∀ m, env.agentRun localTools
        ((dictGet payload "prompt").getD defaultGreeting) = .ok m →
      (invoke env payload).1 = .ok [("result", m)]) ∧
    (∀ e₂, env.agentRun localTools
        ((dictGet payload "prompt").getD defaultGreeting) = .error e₂ →
      (invoke env payload).1 = .error e₂) := by
  simp only [invoke, hc, hen, hls, hrun]
  constructor
  · intro m hm
    exact (fallbackPath_ok env _ _ m hm).1
  · intro e₂ he₂
    simp only [fallbackPath, he₂]

/-- C7 witness for the amended claim. -/
theorem invoke_exec_error_caught_witness :
    (∀ m, execErrorEnv.agentRun localTools
        ((dictGet [("prompt", "x")] "prompt").getD defaultGreeting) = .ok m →
      (invoke execErrorEnv [("prompt", "x")]).1 = .ok [("result", m)]) ∧
    (∀ e₂, execErrorEnv.agentRun localTools
        ((dictGet [("prompt", "x")] "prompt").getD defaultGreeting)
        = .error e₂ →
      (invoke execErrorEnv [("prompt", "x")]).1 = .error e₂) :=
  invoke_exec_error_caught execErrorEnv [("prompt", "x")]
    ["get_stock_price"] "ThrottlingException" rfl rfl rfl (by decide)

/-- C8: with a reachable tool server (client creation and connection
entry succeed), the connection is opened exactly once and closed exactly
once whatever tool discovery and agent execution do; and when discovery
and execution both succeed, `invoke` returns the result the agent
produced with the combined tool set (remote tools plus the local file
tools). -/
theorem invoke_connection_scoped (env : InvokeEnv)
    (payload : List (String × String))
    (hc : env.create_finance_client = .ok ())
    (hen : env.enterConnection = .ok ()) :
    ((invoke env payload).2.count Event.closeConn = 1 ∧
     (invoke env payload).2.count Event.openConn = 1) ∧
    (∀ ts m, env.list_tools_sync = .ok ts →
      env.agentRun (ts ++ localTools)
        ((dictGet payload "prompt").getD defaultGreeting) = .ok m →
      (invoke env payload).1 = .ok [("result", m)]) := by
  rcases hls : env.list_tools_sync with e | ts
  · rcases hfb : env.agentRun localTools
        ((dictGet payload "prompt").getD defaultGreeting) with e' | m
    · refine ⟨⟨?_, ?_⟩, fun ts m hts _ => absurd hts (by simp [hls])⟩
      · simp only [invoke, hc, hen, hls, fallbackPath, hfb]
        rfl
      · simp only [invoke, hc, hen, hls, fallbackPath, hfb]
        rfl
    · refine ⟨⟨?_, ?_⟩, fun ts m hts _ => absurd hts (by simp [hls])⟩
      · simp only [invoke, hc, hen, hls, fallbackPath, hfb]
        rfl
      · simp only [invoke, hc, hen, hls, fallbackPath, hfb]
        rfl
  · rcases hrun : env.agentRun (ts ++ localTools)
        ((dictGet payload "prompt").getD defaultGreeting) with e' | m
    · have hsnd : ∀ ts' m',
          (Except.ok ts : Except String (List String)) = .ok ts' →
          env.agentRun (ts' ++ localTools)
            ((dictGet payload "prompt").getD defaultGreeting) = .ok m' →
          (invoke env payload).1 = .ok [("result", m')] := by
        intro ts' m' hts' hm'
        injection hts' with h
        subst h
        rw [hrun] at hm'
        exact Except.noConfusion hm'
      rcases hfb : env.agentRun localTools
          ((dictGet payload "prompt").getD defaultGreeting) with e'' | m
      · refine ⟨⟨?_, ?_⟩, hsnd⟩
        · simp only [invoke, hc, hen, hls, hrun, fallbackPath, hfb]
          rfl
        · simp only [invoke, hc, hen, hls, hrun, fallbackPath, hfb]
          rfl
      · refine ⟨⟨?_, ?_⟩, hsnd⟩
        · simp only [invoke, hc, hen, hls, hrun, fallbackPath, hfb]
          rfl
        · simp only [invoke, hc, hen, hls, hrun, fallbackPath, hfb]
          rfl
    · refine ⟨⟨?_, ?_⟩, ?_⟩
      · simp only [invoke, hc, hen, hls, hrun]
        rfl
      · simp only [invoke, hc, hen, hls, hrun]
        rfl
      · intro ts' m' hts' hm'
        injection hts' with h
        subst h
        rw [hrun] at hm'
        injection hm' with h2
        subst h2
        simp only [invoke, hc, hen, hls, hrun]

/-- C8 witness: a fully successful run. -/
theorem invoke_connection_scoped_witness :
    ((invoke ⟨.ok (), .ok (), .ok ["get_stock_price"],
        fun _ _ => .ok "answer"⟩ [("prompt", "x")]).2.count
          Event.closeConn = 1 ∧
     (invoke ⟨.ok (), .ok (), .ok ["get_stock_price"],
        fun _ _ => .ok "answer"⟩ [("prompt", "x")]).2.count
          Event.openConn = 1) ∧
    (∀ ts m,
      (Except.ok ["get_stock_price"] : Except String (List String))
        = .ok ts →
      (fun (_ : List String) (_ : String) =>
        (Except.ok "answer" : Except String String)) (ts ++ localTools)
        ((dictGet [("prompt", "x")] "prompt").getD defaultGreeting) = .ok m →
      (invoke ⟨.ok (), .ok (), .ok ["get_stock_price"],
        fun _ _ => .ok "answer"⟩ [("prompt", "x")]).1
        = .ok [("result", m)]) :=
  invoke_connection_scoped
    ⟨.ok (), .ok (), .ok ["get_stock_price"], fun _ _ => .ok "answer"⟩
    [("prompt", "x")] rfl rfl

end BedrockAgent
